import Mathlib

/-!
Verification of the CAPSTACK guest/authenticated access-control layer.

The definitions below are a shallow embedding of the Express middleware
(`optionalAuthMiddleware`, `requireAuthMiddleware`), the PIN-based auth
controller (`guestLogin`, `login`, `register`) and the savings routes
(`GET /savings/status`, `POST /savings/lock`) of the repository.
JSON web tokens are modelled as an abstract signed container: a token
verifies exactly when it was produced by signing with the same secret and
its expiry lies in the future; any other byte string fails verification.
JavaScript truthiness of optional string/number fields is modelled
explicitly (`truthyStr`, `truthyNat`).
-/

namespace Capstack

/-- Claims object signed by the auth controllers. `guestLogin` signs
userId/email/name with `isGuest = true`, PIN `login` with `isGuest = false`,
and `register` omits the `isGuest` claim entirely, hence `Option Bool`.
`exp` is set by the `expiresIn: 7d` signing option. -/
structure TokenPayload where
  userId : Nat
  email : String
  name : String
  isGuest : Option Bool
  exp : Nat
deriving DecidableEq, Repr

/-- A bearer-token string: either arbitrary bytes that were never produced
by the signer (`garbage`), or the result of signing a payload with a
secret. -/
inductive TokenStr where
  | garbage (raw : String)
  | signed (payload : TokenPayload) (secret : String)
deriving DecidableEq, Repr

/-- Seconds in the `expiresIn: 7d` option passed to every signing call. -/
def sevenDays : Nat := 7 * 24 * 60 * 60

/-- Model of `jwt.sign(\x7b, userId, email, name, isGuest \x7d, secret,
\x7b expiresIn: 7d \x7d)`. -/
def jwtSign (userId : Nat) (email name : String) (isGuest : Option Bool)
    (secret : String) (now : Nat) : TokenStr :=
  TokenStr.signed
    { userId := userId, email := email, name := name,
      isGuest := isGuest, exp := now + sevenDays } secret

/-- Model of `jwt.verify(token, secret)` at time `now`: returns the decoded
payload when the signature matches and the token is unexpired, otherwise
`none` (the JavaScript call throws, which every caller catches). -/
def jwtVerify (tok : TokenStr) (secret : String) (now : Nat) :
    Option TokenPayload :=
  match tok with
  | TokenStr.garbage _ => none
  | TokenStr.signed p s => if s = secret ∧ now < p.exp then some p else none

/-- The parts of an Express request the middleware reads. `authHeader`
models `req.headers.authorization` after `split(" ")`: `none` is a missing
header, `some none` a header whose second segment is absent (malformed
`Bearer` value), `some (some tok)` a header carrying token `tok`. -/
structure HttpRequest where
  method : String
  authHeader : Option (Option TokenStr)
deriving DecidableEq, Repr

/-- The `req.user` object attached by the middleware. `email` is
`Option String` because `optionalAuthMiddleware` writes
`decoded.email || null`. -/
structure AuthUser where
  id : String
  email : Option String
  name : String
  isGuest : Bool
deriving DecidableEq, Repr

/-- The fields the middleware mutates on the request: `none` models the
field left `undefined`. -/
structure AuthState where
  userId : Option Nat
  isGuest : Option Bool
  user : Option AuthUser
deriving DecidableEq, Repr

/-- Request state before any middleware ran: all fields undefined. -/
def AuthState.unset : AuthState :=
  { userId := none, isGuest := none, user := none }

/-- The anonymous/guest classification every failure path of
`optionalAuthMiddleware` writes: `isGuest = true`, `userId` and `user`
undefined. -/
def AuthState.anon : AuthState :=
  { userId := none, isGuest := some true, user := none }

/-- JSON error body: an `error` string plus the optional
`requiresRegistration` flag (present only on the guest-forbidden 403). -/
structure ErrorBody where
  error : String
  requiresRegistration : Option Bool
deriving DecidableEq, Repr

/-- Outcome of running one middleware: either `next()` was called with the
given fields attached to the request, or a response was sent and the chain
stopped. -/
inductive MwResult where
  | next (state : AuthState)
  | respond (status : Nat) (body : ErrorBody)
deriving DecidableEq, Repr

/-- JavaScript truthiness of `decoded.isGuest`, an optional boolean. -/
def truthyOptBool (o : Option Bool) : Bool := o.getD false

/-- Shallow embedding of `optionalAuthMiddleware` (classification
middleware). Mirrors the source branch for branch: OPTIONS passes through
unclassified; missing header, missing token segment and failed
verification all attach the anonymous classification and continue; a
verified token attaches the decoded identity. -/
def optionalAuthMiddleware (secret : String) (now : Nat)
    (req : HttpRequest) : MwResult :=
  if req.method = "OPTIONS" then
    MwResult.next AuthState.unset
  else
    match req.authHeader with
    | none => MwResult.next AuthState.anon
    | some none => MwResult.next AuthState.anon
    | some (some tok) =>
      match jwtVerify tok secret now with
      | none => MwResult.next AuthState.anon
      | some d =>
        MwResult.next
          { userId := some d.userId
          , isGuest := some (truthyOptBool d.isGuest)
          , user := some
              { id := toString d.userId
              , email := if d.email = "" then none else some d.email
              , name := d.name
              , isGuest := truthyOptBool d.isGuest } }

/-- Shallow embedding of `requireAuthMiddleware` (Route Guard). Missing
header and failed verification give 401, a verified token with a truthy
guest flag gives 403 with `requiresRegistration: true`, otherwise the
identity is attached and the chain continues. -/
def requireAuthMiddleware (secret : String) (now : Nat)
    (req : HttpRequest) : MwResult :=
  if req.method = "OPTIONS" then
    MwResult.next AuthState.unset
  else
    match req.authHeader with
    | none =>
      MwResult.respond 401
        { error := "Authentication required for this feature. Please create an account."
        , requiresRegistration := none }
    | some none =>
      MwResult.respond 401
        { error := "Invalid token format", requiresRegistration := none }
    | some (some tok) =>
      match jwtVerify tok secret now with
      | none =>
        MwResult.respond 401
          { error := "Authentication required for this feature. Please create an account."
          , requiresRegistration := none }
      | some d =>
        if truthyOptBool d.isGuest then
          MwResult.respond 403
            { error := "This feature requires a full account. Please register with your email to access advanced features."
            , requiresRegistration := some true }
        else
          MwResult.next
            { userId := some d.userId
            , isGuest := some false
            , user := some
                { id := toString d.userId
                , email := some d.email
                , name := d.name
                , isGuest := false } }

/-- The bearer token of a request decoded at time `now`, or `none` when the
header is absent, malformed, or fails verification. The failure modes of
the classification middleware are exactly the requests where this is
`none`. -/
def decodeBearer (secret : String) (now : Nat) (req : HttpRequest) :
    Option TokenPayload :=
  match req.authHeader with
  | some (some tok) => jwtVerify tok secret now
  | _ => none

/-- JavaScript truthiness of the `userId` field attached to a request:
falsy when undefined or when the number is `0`. -/
def truthyNat (o : Option Nat) : Bool :=
  match o with
  | none => false
  | some n => n != 0

/-- JavaScript truthiness of an optional string body field: falsy when the
field is absent or the empty string. -/
def truthyStr (o : Option String) : Bool :=
  match o with
  | none => false
  | some s => s != ""

/-- One entry of the fixed `plans` array in the demo payload of
`GET /savings/status`. -/
structure SavingsPlanJson where
  id : Nat
  name : String
  target_amount : Nat
  current_amount : Nat
  monthly_contribution : Nat
  lock_percentage : Nat
  target_date : String
deriving DecidableEq, Repr

/-- The demo body returned by `GET /savings/status` for guests and
unauthenticated callers. -/
structure SavingsStatusDemo where
  totalSaved : Nat
  locked : Nat
  available : Nat
  monthlyAutoSave : Nat
  disciplineScore : Nat
  plans : List SavingsPlanJson
  isGuest : Bool
  note : String
deriving DecidableEq, Repr

/-- The literal demo object in the `GET /savings/status` handler. -/
def demoSavingsStatus : SavingsStatusDemo :=
  { totalSaved := 125000
  , locked := 75000
  , available := 50000
  , monthlyAutoSave := 5200
  , disciplineScore := 78
  , plans :=
      [ { id := 1, name := "Emergency Fund", target_amount := 150000
        , current_amount := 45000, monthly_contribution := 5000
        , lock_percentage := 80, target_date := "2025-12-31" }
      , { id := 2, name := "Vacation Fund", target_amount := 100000
        , current_amount := 25000, monthly_contribution := 3000
        , lock_percentage := 60, target_date := "2025-08-15" } ]
  , isGuest := true
  , note := "Demo savings data. Sign up to create and manage real plans." }

/-- Outcome of the `GET /savings/status` route. `demo` is the inline
`res.json(...)` answer (status 200, no database access); `realGetStatus`
is delegation to the database-backed `getStatus` controller with the
request state the middleware attached; `middlewareError` would be a
response sent by the middleware itself. -/
inductive StatusOutcome where
  | demo (status : Nat) (body : SavingsStatusDemo)
  | realGetStatus (state : AuthState)
  | middlewareError (status : Nat) (body : ErrorBody)
deriving DecidableEq, Repr

/-- Shallow embedding of `GET /savings/status`: `router.use` runs
`optionalAuthMiddleware`, then the handler returns the demo body when
`!userId || isGuest` (JavaScript truthiness) and otherwise delegates to
`getStatus`. -/
def getSavingsStatusRoute (secret : String) (now : Nat)
    (req : HttpRequest) : StatusOutcome :=
  match optionalAuthMiddleware secret now req with
  | MwResult.respond st b => StatusOutcome.middlewareError st b
  | MwResult.next s =>
    if !(truthyNat s.userId) || truthyOptBool s.isGuest then
      StatusOutcome.demo 200 demoSavingsStatus
    else
      StatusOutcome.realGetStatus s

/-- Outcome of a Route-Guard-protected savings route such as
`POST /savings/lock`: either some middleware responded and the controller
never ran, or the mutating controller (`lock`, `unlock`, `createPlan`, …)
was invoked with the attached request state. -/
inductive GuardedOutcome where
  | rejected (status : Nat) (body : ErrorBody)
  | handlerRun (state : AuthState)
deriving DecidableEq, Repr

/-- Shallow embedding of every `router.post(..., requireAuthMiddleware,
handler)` route in `savingsRoutes.ts` (for example `POST /savings/lock`):
`router.use(optionalAuthMiddleware)` runs first, then the Route Guard, and
the mutating controller runs only if both called `next()`. -/
def guardedRoute (secret : String) (now : Nat)
    (req : HttpRequest) : GuardedOutcome :=
  match optionalAuthMiddleware secret now req with
  | MwResult.respond st b => GuardedOutcome.rejected st b
  | MwResult.next _ =>
    match requireAuthMiddleware secret now req with
    | MwResult.respond st b => GuardedOutcome.rejected st b
    | MwResult.next s => GuardedOutcome.handlerRun s

/-- Modelled from the spec: a persisted user row created by
`DatabaseService` (`createGuestUser` / `createUserWithPin`), whose
implementation is not among the sources; the spec records that guest
accounts are persisted as real user rows. -/
structure UserRec where
  id : Nat
  email : String
  name : String
  pin : Option String
  guestRow : Bool
deriving DecidableEq, Repr

/-- Modelled from the spec: the relational user store behind
`DatabaseService`, as an in-memory list of rows. -/
abbrev Db : Type := List UserRec

/-- Modelled from the spec: `DatabaseService.getUserByEmail` returns the
stored row with the given email, if any. -/
def getUserByEmail (db : Db) (email : String) : Option UserRec :=
  db.find? (fun u => u.email == email)

/-- Modelled from the spec: `DatabaseService.getUserByEmailAndPin` returns
the stored row matching both credentials, if any. -/
def getUserByEmailAndPin (db : Db) (email pin : String) : Option UserRec :=
  db.find? (fun u => u.email == email && u.pin == some pin)

/-- Modelled from the spec: row insertion assigns a fresh positive id. -/
def freshId (db : Db) : Nat := db.length + 1

/-- Modelled from the spec: `DatabaseService.createGuestUser` inserts a
guest row and returns its id. -/
def createGuestUser (db : Db) (email name : String) : Nat × Db :=
  (freshId db, db ++ [{ id := freshId db, email := email, name := name
                      , pin := none, guestRow := true }])

/-- Modelled from the spec: `DatabaseService.createUserWithPin` inserts a
registered-user row with the given PIN and returns its id. -/
def createUserWithPin (db : Db) (email name pin : String) : Nat × Db :=
  (freshId db, db ++ [{ id := freshId db, email := email, name := name
                      , pin := some pin, guestRow := false }])

/-- Database calls a controller makes, recorded so theorems can state that
no lookup or insertion happened. -/
inductive DbEffect where
  | getUserByEmailAndPin (email pin : String)
  | getUserByEmail (email : String)
  | createGuestUser (email name : String)
  | createUserWithPin (email name pin : String)
deriving DecidableEq, Repr

/-- Request body of the auth endpoints; every field is optional. -/
structure AuthBody where
  email : Option String
  pin : Option String
  name : Option String
deriving DecidableEq, Repr

/-- The `user` object in a successful auth response. `isGuest` is absent
(`none`) in the `register` response. -/
structure UserJson where
  id : String
  email : String
  name : String
  isGuest : Option Bool
deriving DecidableEq, Repr

/-- Response of an auth controller: an error status with message, or a
success (`res.json`, status 200 unless set) carrying an optional message,
the signed token and the user object. -/
inductive AuthOutcome where
  | err (status : Nat) (error : String)
  | ok (status : Nat) (message : Option String) (token : TokenStr)
      (user : UserJson)
deriving DecidableEq, Repr

/-- The `/^\d\x7b4\x7d$/` test on the PIN: exactly four decimal digits. -/
def isPin4 (s : String) : Bool :=
  s.data.length == 4 && s.data.all Char.isDigit

/-- Shallow embedding of `guestLogin`: builds the synthetic guest identity
from the clock and a random suffix, inserts a guest row, signs a token with
`isGuest: true` and returns it. `rand` stands for the random suffix of the
generated guest id. -/
def guestLogin (secret : String) (now : Nat) (rand : String) (db : Db) :
    AuthOutcome × Db × List DbEffect :=
  let guestId := "guest_" ++ toString now ++ "_" ++ rand
  let guestEmail := guestId ++ "@guest.capstack.local"
  let guestName := "Guest User"
  let created := createGuestUser db guestEmail guestName
  let effs := [DbEffect.createGuestUser guestEmail guestName]
  if created.1 = 0 then
    (AuthOutcome.err 500 "Failed to create guest session", created.2, effs)
  else
    (AuthOutcome.ok 200 none
        (jwtSign created.1 guestEmail guestName (some true) secret now)
        { id := toString created.1, email := guestEmail, name := guestName
        , isGuest := some true },
      created.2, effs)

/-- Shallow embedding of the PIN `login` controller: both credentials
falsy delegates to `guestLogin`; one falsy is a 400; a malformed PIN is a
400 before any lookup; otherwise the credential lookup decides between 401
and a token signed with `isGuest: false`. -/
def login (secret : String) (now : Nat) (rand : String) (db : Db)
    (body : AuthBody) : AuthOutcome × Db × List DbEffect :=
  if !(truthyStr body.email) && !(truthyStr body.pin) then
    guestLogin secret now rand db
  else if !(truthyStr body.email) || !(truthyStr body.pin) then
    (AuthOutcome.err 400 "Email and PIN are required", db, [])
  else
    let email := body.email.getD ""
    let pin := body.pin.getD ""
    if !(isPin4 pin) then
      (AuthOutcome.err 400 "PIN must be exactly 4 digits", db, [])
    else
      match getUserByEmailAndPin db email pin with
      | none =>
        (AuthOutcome.err 401 "Invalid email or PIN", db,
          [DbEffect.getUserByEmailAndPin email pin])
      | some u =>
        (AuthOutcome.ok 200 none
            (jwtSign u.id u.email u.name (some false) secret now)
            { id := toString u.id, email := u.email, name := u.name
            , isGuest := some false },
          db, [DbEffect.getUserByEmailAndPin email pin])

/-- Shallow embedding of the PIN `register` controller: validates presence
of all three fields and the PIN shape, rejects an existing email with 400,
otherwise inserts the row and signs a token that omits the `isGuest`
claim. -/
def register (secret : String) (now : Nat) (db : Db) (body : AuthBody) :
    AuthOutcome × Db × List DbEffect :=
  if !(truthyStr body.email) || !(truthyStr body.pin)
      || !(truthyStr body.name) then
    (AuthOutcome.err 400 "Email, PIN, and name are required", db, [])
  else
    let email := body.email.getD ""
    let pin := body.pin.getD ""
    let name := body.name.getD ""
    if !(isPin4 pin) then
      (AuthOutcome.err 400 "PIN must be exactly 4 digits", db, [])
    else
      match getUserByEmail db email with
      | some _ =>
        (AuthOutcome.err 400 "User already exists with this email", db,
          [DbEffect.getUserByEmail email])
      | none =>
        let created := createUserWithPin db email name pin
        let effs := [DbEffect.getUserByEmail email,
                     DbEffect.createUserWithPin email name pin]
        if created.1 = 0 then
          (AuthOutcome.err 500
              "Failed to create user account. Please try again.",
            created.2, effs)
        else
          (AuthOutcome.ok 200 (some "User registered successfully")
              (jwtSign created.1 email name none secret now)
              { id := toString created.1, email := email, name := name
              , isGuest := none },
            created.2, effs)

/-- Round-trip property of one auth response: whenever the response carries
a token, verifying it with the same secret (before expiry) decodes to a
payload whose userId, email, name and isGuest claims agree with the user
object returned alongside, which mirrors exactly what was encoded at
issuance. -/
def roundTripOk (secret : String) (at2 : Nat) : AuthOutcome → Prop
  | AuthOutcome.err _ _ => True
  | AuthOutcome.ok _ _ tok user =>
    ∃ p, jwtVerify tok secret at2 = some p ∧
      toString p.userId = user.id ∧ p.email = user.email ∧
      p.name = user.name ∧ p.isGuest = user.isGuest

/-- A signature-valid guest token used to instantiate theorems: signed with
secret `"s"`, guest flag true, expiry 10. -/
def sampleGuestTok : TokenStr :=
  TokenStr.signed
    { userId := 7, email := "g7@guest.capstack.local", name := "Guest User"
    , isGuest := some true, exp := 10 } "s"

/-- A token whose expiry is already past at time 5, used to instantiate
theorems about expired tokens. -/
def sampleExpiredTok : TokenStr :=
  TokenStr.signed
    { userId := 3, email := "a@b.c", name := "Alice"
    , isGuest := some false, exp := 1 } "s"

/-- A registration body used to instantiate theorems. -/
def sampleRegBody : AuthBody :=
  { email := some "a@b.c", pin := some "1234", name := some "Alice" }

/- ------------------------------------------------------------------ -/
/- Helper lemmas                                                       -/
/- ------------------------------------------------------------------ -/

/-- Verifying a freshly signed token with the same secret before its
expiry decodes to exactly the signed payload. -/
theorem jwtVerify_jwtSign (userId : Nat) (email name : String)
    (g : Option Bool) (secret : String) (now at2 : Nat)
    (h : at2 < now + sevenDays) :
    jwtVerify (jwtSign userId email name g secret now) secret at2 =
      some { userId := userId, email := email, name := name, isGuest := g
           , exp := now + sevenDays } := by
  simp [jwtVerify, jwtSign, h]

/-- `find?` skips a prefix on which it fails. -/
theorem find?_append_of_none {α : Type} (p : α → Bool) (l₁ l₂ : List α)
    (h : l₁.find? p = none) : (l₁ ++ l₂).find? p = l₂.find? p := by
  rw [List.find?_append, h]; rfl

/- ------------------------------------------------------------------ -/
/- Claim theorems                                                      -/
/- ------------------------------------------------------------------ -/

/-- C2: for every request, whatever the header or token,
`optionalAuthMiddleware` never sends a response: it always calls `next()`,
and every failure mode (no decodable bearer token, outside the OPTIONS
pass-through) attaches the anonymous classification `isGuest = true`,
`userId` and `user` undefined. -/
theorem optionalAuth_always_proceeds (secret : String) (now : Nat)
    (req : HttpRequest) :
    (∃ s, optionalAuthMiddleware secret now req = MwResult.next s) ∧
    (req.method ≠ "OPTIONS" → decodeBearer secret now req = none →
      optionalAuthMiddleware secret now req = MwResult.next AuthState.anon) := by
  constructor
  · unfold optionalAuthMiddleware
    split
    · exact ⟨_, rfl⟩
    · split
      · exact ⟨_, rfl⟩
      · exact ⟨_, rfl⟩
      · split
        · exact ⟨_, rfl⟩
        · exact ⟨_, rfl⟩
  · intro hm hd
    rcases h : req.authHeader with _ | htok
    · simp [optionalAuthMiddleware, hm, h]
    · rcases htok with _ | tok
      · simp [optionalAuthMiddleware, hm, h]
      · simp only [decodeBearer, h] at hd
        simp [optionalAuthMiddleware, hm, h, hd]

/-- C2 witness: a request with a garbage token is downgraded to anonymous
and control proceeds. -/
theorem optionalAuth_always_proceeds_witness :
    (HttpRequest.mk "GET" (some (some (TokenStr.garbage "xx")))).method ≠ "OPTIONS" ∧
    decodeBearer "s" 0 (HttpRequest.mk "GET" (some (some (TokenStr.garbage "xx")))) = none ∧
    optionalAuthMiddleware "s" 0 (HttpRequest.mk "GET" (some (some (TokenStr.garbage "xx"))))
      = MwResult.next AuthState.anon :=
  ⟨by decide, rfl,
    (optionalAuth_always_proceeds "s" 0
      (HttpRequest.mk "GET" (some (some (TokenStr.garbage "xx"))))).2
      (by decide) rfl⟩

/-- C4: on an optionally-guarded route, a request whose bearer token fails
verification (expired or wrong signature) is classified and handled
exactly like a request with no Authorization header: the middleware
attaches the same fields, the `GET /savings/status` pipeline produces the
same response, and no error response (no 401) is ever sent. -/
theorem invalid_token_equiv_anonymous (secret : String) (now : Nat)
    (method : String) (tok : TokenStr)
    (hv : jwtVerify tok secret now = none) :
    optionalAuthMiddleware secret now (HttpRequest.mk method (some (some tok)))
      = optionalAuthMiddleware secret now (HttpRequest.mk method none) ∧
    getSavingsStatusRoute secret now (HttpRequest.mk method (some (some tok)))
      = getSavingsStatusRoute secret now (HttpRequest.mk method none) ∧
    ∀ st b, optionalAuthMiddleware secret now (HttpRequest.mk method (some (some tok)))
      ≠ MwResult.respond st b := by
  by_cases hm : method = "OPTIONS" <;>
    simp [optionalAuthMiddleware, getSavingsStatusRoute, hm, hv]

/-- C4 witness: an expired token behaves like a missing header on
`GET /savings/status` and never triggers a 401. -/
theorem invalid_token_equiv_anonymous_witness :
    jwtVerify sampleExpiredTok "s" 5 = none ∧
    getSavingsStatusRoute "s" 5 (HttpRequest.mk "GET" (some (some sampleExpiredTok)))
      = getSavingsStatusRoute "s" 5 (HttpRequest.mk "GET" none) ∧
    optionalAuthMiddleware "s" 5 (HttpRequest.mk "GET" (some (some sampleExpiredTok)))
      ≠ MwResult.respond 401 (ErrorBody.mk "Unauthorized" none) :=
  ⟨by decide,
    (invalid_token_equiv_anonymous "s" 5 "GET" sampleExpiredTok (by decide)).2.1,
    (invalid_token_equiv_anonymous "s" 5 "GET" sampleExpiredTok (by decide)).2.2
      401 (ErrorBody.mk "Unauthorized" none)⟩

/-- C1: a request whose bearer token verifies and decodes with a truthy
guest flag never reaches a Route-Guard-protected mutating controller:
`requireAuthMiddleware` responds before the handler runs. The guarded
routes are all registered with `router.post`, so a dispatched request has
method POST, never the OPTIONS preflight pass-through. -/
theorem guest_token_never_reaches_mutating_handler (secret : String)
    (now : Nat) (req : HttpRequest) (tok : TokenStr) (p : TokenPayload)
    (hm : req.method ≠ "OPTIONS")
    (hh : req.authHeader = some (some tok))
    (hv : jwtVerify tok secret now = some p)
    (hg : truthyOptBool p.isGuest = true) :
    ∀ s, guardedRoute secret now req ≠ GuardedOutcome.handlerRun s := by
  intro s
  simp [guardedRoute, optionalAuthMiddleware, requireAuthMiddleware,
        hm, hh, hv, hg]

/-- C1 witness: a concrete POST with a signature-valid guest token never
runs the mutating handler. -/
theorem guest_token_never_reaches_mutating_handler_witness :
    (HttpRequest.mk "POST" (some (some sampleGuestTok))).method ≠ "OPTIONS" ∧
    jwtVerify sampleGuestTok "s" 3
      = some { userId := 7, email := "g7@guest.capstack.local"
             , name := "Guest User", isGuest := some true, exp := 10 } ∧
    guardedRoute "s" 3 (HttpRequest.mk "POST" (some (some sampleGuestTok)))
      ≠ GuardedOutcome.handlerRun AuthState.anon :=
  ⟨by decide, by decide,
    guest_token_never_reaches_mutating_handler "s" 3
      (HttpRequest.mk "POST" (some (some sampleGuestTok))) sampleGuestTok
      { userId := 7, email := "g7@guest.capstack.local"
      , name := "Guest User", isGuest := some true, exp := 10 }
      (by decide) rfl (by decide) (by decide) AuthState.anon⟩

/-- C3: on a Route-Guard-protected endpoint, a signature-valid token whose
decoded guest flag is truthy is answered with status 403 and a body whose
`requiresRegistration` field is `true`; the protected controller is not
invoked (the outcome is `rejected`, not `handlerRun`). -/
theorem guest_token_forbidden_403 (secret : String) (now : Nat)
    (req : HttpRequest) (tok : TokenStr) (p : TokenPayload)
    (hm : req.method ≠ "OPTIONS")
    (hh : req.authHeader = some (some tok))
    (hv : jwtVerify tok secret now = some p)
    (hg : truthyOptBool p.isGuest = true) :
    guardedRoute secret now req
      = GuardedOutcome.rejected 403
          { error := "This feature requires a full account. Please register with your email to access advanced features."
          , requiresRegistration := some true } := by
  simp [guardedRoute, optionalAuthMiddleware, requireAuthMiddleware,
        hm, hh, hv, hg]

/-- C3 witness: the concrete guest-token POST is rejected with 403 and
`requiresRegistration: true`. -/
theorem guest_token_forbidden_403_witness :
    jwtVerify sampleGuestTok "s" 3
      = some { userId := 7, email := "g7@guest.capstack.local"
             , name := "Guest User", isGuest := some true, exp := 10 } ∧
    guardedRoute "s" 3 (HttpRequest.mk "POST" (some (some sampleGuestTok)))
      = GuardedOutcome.rejected 403
          { error := "This feature requires a full account. Please register with your email to access advanced features."
          , requiresRegistration := some true } :=
  ⟨by decide,
    guest_token_forbidden_403 "s" 3
      (HttpRequest.mk "POST" (some (some sampleGuestTok))) sampleGuestTok
      { userId := 7, email := "g7@guest.capstack.local"
      , name := "Guest User", isGuest := some true, exp := 10 }
      (by decide) rfl (by decide) (by decide)⟩

/-- C7: a request without an Authorization header to a
Route-Guard-protected endpoint such as `POST /savings/lock` is answered
with status 401 and the "Authentication required" create-an-account error,
and the controller is not invoked. -/
theorem lock_without_header_401 (secret : String) (now : Nat)
    (req : HttpRequest)
    (hm : req.method ≠ "OPTIONS")
    (hh : req.authHeader = none) :
    guardedRoute secret now req
      = GuardedOutcome.rejected 401
          { error := "Authentication required for this feature. Please create an account."
          , requiresRegistration := none } := by
  simp [guardedRoute, optionalAuthMiddleware, requireAuthMiddleware, hm, hh]

/-- C7 witness: the concrete header-less POST is rejected with 401 and the
create-an-account guidance. -/
theorem lock_without_header_401_witness :
    (HttpRequest.mk "POST" none).method ≠ "OPTIONS" ∧
    guardedRoute "s" 0 (HttpRequest.mk "POST" none)
      = GuardedOutcome.rejected 401
          { error := "Authentication required for this feature. Please create an account."
          , requiresRegistration := none } :=
  ⟨by decide, lock_without_header_401 "s" 0 (HttpRequest.mk "POST" none)
      (by decide) rfl⟩

/-- C5: a `GET /savings/status` request that is anonymous (no
Authorization header) or carries a signature-valid guest token is answered
with status 200 and the fixed demo payload — two plans named Emergency
Fund and Vacation Fund, `isGuest: true` and a register-prompting note —
produced by the inline branch with no database access (the `demo` outcome
never consults the store). -/
theorem savings_status_demo_for_anonymous_or_guest (secret : String)
    (now : Nat) (req : HttpRequest)
    (hm : req.method = "GET")
    (h : req.authHeader = none ∨
      ∃ tok p, req.authHeader = some (some tok) ∧
        jwtVerify tok secret now = some p ∧ truthyOptBool p.isGuest = true) :
    getSavingsStatusRoute secret now req
      = StatusOutcome.demo 200 demoSavingsStatus ∧
    demoSavingsStatus.isGuest = true ∧
    demoSavingsStatus.plans.map SavingsPlanJson.name
      = ["Emergency Fund", "Vacation Fund"] ∧
    demoSavingsStatus.note
      = "Demo savings data. Sign up to create and manage real plans." := by
  refine ⟨?_, rfl, rfl, rfl⟩
  rcases h with hh | ⟨tok, p, hh, hv, hg⟩
  · simp [getSavingsStatusRoute, optionalAuthMiddleware, hm, hh,
          AuthState.anon, truthyNat, truthyOptBool]
  · simp [getSavingsStatusRoute, optionalAuthMiddleware, hm, hh, hv, hg,
          truthyNat, truthyOptBool]
    intro _
    simpa [truthyOptBool] using hg

/-- C5 witness: the concrete guest-token GET receives the demo payload. -/
theorem savings_status_demo_for_anonymous_or_guest_witness :
    jwtVerify sampleGuestTok "s" 3
      = some { userId := 7, email := "g7@guest.capstack.local"
             , name := "Guest User", isGuest := some true, exp := 10 } ∧
    getSavingsStatusRoute "s" 3 (HttpRequest.mk "GET" (some (some sampleGuestTok)))
      = StatusOutcome.demo 200 demoSavingsStatus ∧
    demoSavingsStatus.plans.map SavingsPlanJson.name
      = ["Emergency Fund", "Vacation Fund"] :=
  ⟨by decide,
    (savings_status_demo_for_anonymous_or_guest "s" 3
      (HttpRequest.mk "GET" (some (some sampleGuestTok))) rfl
      (Or.inr ⟨sampleGuestTok,
        { userId := 7, email := "g7@guest.capstack.local"
        , name := "Guest User", isGuest := some true, exp := 10 },
        rfl, by decide, by decide⟩)).1,
    (savings_status_demo_for_anonymous_or_guest "s" 3
      (HttpRequest.mk "GET" (some (some sampleGuestTok))) rfl
      (Or.inr ⟨sampleGuestTok,
        { userId := 7, email := "g7@guest.capstack.local"
        , name := "Guest User", isGuest := some true, exp := 10 },
        rfl, by decide, by decide⟩)).2.2.1⟩

/-- C6: every token-issuing path — guest login, PIN login and
registration — signs a token that, verified with the same secret before
expiry, decodes to exactly the userId, email, name and isGuest claims
encoded at issuance (mirrored by the user object returned with the token;
registration encodes no isGuest claim and none is decoded). -/
theorem token_roundtrip (secret rand : String) (now at2 : Nat) (db : Db)
    (body : AuthBody) (h : at2 < now + sevenDays) :
    roundTripOk secret at2 (guestLogin secret now rand db).1 ∧
    roundTripOk secret at2 (login secret now rand db body).1 ∧
    roundTripOk secret at2 (register secret now db body).1 := by
  have hguest : roundTripOk secret at2 (guestLogin secret now rand db).1 := by
    simp only [guestLogin, createGuestUser, freshId]
    simp only [Nat.add_one_ne_zero, if_false, roundTripOk]
    exact ⟨_, jwtVerify_jwtSign _ _ _ _ _ _ _ h, rfl, rfl, rfl, rfl⟩
  refine ⟨hguest, ?_, ?_⟩
  · unfold login
    split
    · exact hguest
    · split
      · simp [roundTripOk]
      · dsimp only
        split
        · simp [roundTripOk]
        · split
          · simp [roundTripOk]
          · simp only [roundTripOk]
            exact ⟨_, jwtVerify_jwtSign _ _ _ _ _ _ _ h, rfl, rfl, rfl, rfl⟩
  · unfold register
    split
    · simp [roundTripOk]
    · dsimp only
      split
      · simp [roundTripOk]
      · split
        · simp [roundTripOk]
        · simp only [createUserWithPin, freshId]
          simp only [Nat.add_one_ne_zero, if_false, roundTripOk]
          exact ⟨_, jwtVerify_jwtSign _ _ _ _ _ _ _ h, rfl, rfl, rfl, rfl⟩

/-- C6 witness: concrete guest login, PIN login and registration all
round-trip their claims. -/
theorem token_roundtrip_witness :
    (5 : Nat) < 0 + sevenDays ∧
    (roundTripOk "s" 5 (guestLogin "s" 0 "r" []).1 ∧
     roundTripOk "s" 5 (login "s" 0 "r" [] sampleRegBody).1 ∧
     roundTripOk "s" 5 (register "s" 0 [] sampleRegBody).1) :=
  ⟨by decide, token_roundtrip "s" "r" 0 5 [] sampleRegBody (by decide)⟩

/-- C8 counterexample: a login request whose pin field is present with the
value "12" but whose email field is absent is answered with the error
"Email and PIN are required", not "PIN must be exactly 4 digits" as the
claim states for every request with a present non-4-digit pin. -/
theorem login_pin_without_email_cex :
    login "secret" 0 "r" []
        { email := none, pin := some "12", name := none }
      = (AuthOutcome.err 400 "Email and PIN are required", [], []) ∧
    ("Email and PIN are required" : String)
      ≠ "PIN must be exactly 4 digits" :=
  ⟨rfl, by decide⟩

/-- C8 (amended): a login request whose email and pin fields are both
present and non-empty, with the pin not exactly four decimal digits, is
answered with status 400 and the error "PIN must be exactly 4 digits",
with no database call and no token issued. -/
theorem login_bad_pin_rejected (secret rand : String) (now : Nat)
    (db : Db) (body : AuthBody)
    (he : truthyStr body.email = true)
    (hp : truthyStr body.pin = true)
    (h4 : isPin4 (body.pin.getD "") = false) :
    login secret now rand db body
      = (AuthOutcome.err 400 "PIN must be exactly 4 digits", db, []) := by
  simp [login, he, hp, h4]

/-- C8 witness: email "a@b.c" with pin "12" is rejected with the PIN-shape
error and an empty effect list. -/
theorem login_bad_pin_rejected_witness :
    truthyStr (some "a@b.c") = true ∧ truthyStr (some "12") = true ∧
    isPin4 "12" = false ∧
    login "s" 0 "r" [] { email := some "a@b.c", pin := some "12", name := none }
      = (AuthOutcome.err 400 "PIN must be exactly 4 digits", [], []) :=
  ⟨by decide, by decide, by decide,
    login_bad_pin_rejected "s" "r" 0 []
      { email := some "a@b.c", pin := some "12", name := none }
      (by decide) (by decide) (by decide)⟩

/-- C10: a login request in which both email and pin are falsy delegates
to guest login: a fresh guest row is inserted into the store and the
response is status 200 with a token signed with `isGuest: true` and a user
object whose isGuest field is true — not a validation error. -/
theorem login_without_credentials_guest (secret rand : String) (now : Nat)
    (db : Db) (body : AuthBody)
    (he : truthyStr body.email = false)
    (hp : truthyStr body.pin = false) :
    login secret now rand db body
      = (AuthOutcome.ok 200 none
            (jwtSign (db.length + 1)
              ("guest_" ++ toString now ++ "_" ++ rand ++ "@guest.capstack.local")
              "Guest User" (some true) secret now)
            { id := toString (db.length + 1)
            , email := "guest_" ++ toString now ++ "_" ++ rand ++ "@guest.capstack.local"
            , name := "Guest User", isGuest := some true },
          db ++ [{ id := db.length + 1
                 , email := "guest_" ++ toString now ++ "_" ++ rand ++ "@guest.capstack.local"
                 , name := "Guest User", pin := none, guestRow := true }],
          [DbEffect.createGuestUser
            ("guest_" ++ toString now ++ "_" ++ rand ++ "@guest.capstack.local")
            "Guest User"]) := by
  simp [login, he, hp, guestLogin, createGuestUser, freshId]

/-- C10 witness: an empty login body creates a guest row and returns a
guest token. -/
theorem login_without_credentials_guest_witness :
    truthyStr (none : Option String) = false ∧
    login "s" 0 "r" [] { email := none, pin := none, name := none }
      = (AuthOutcome.ok 200 none
            (jwtSign 1 "guest_0_r@guest.capstack.local" "Guest User"
              (some true) "s" 0)
            { id := "1", email := "guest_0_r@guest.capstack.local"
            , name := "Guest User", isGuest := some true },
          [{ id := 1, email := "guest_0_r@guest.capstack.local"
           , name := "Guest User", pin := none, guestRow := true }],
          [DbEffect.createGuestUser "guest_0_r@guest.capstack.local"
            "Guest User"]) :=
  ⟨rfl,
    login_without_credentials_guest "s" "r" 0 []
      { email := none, pin := none, name := none } rfl rfl⟩

/-- C9: registering a body whose email is not yet stored succeeds and
issues a token; registering the same body again against the updated store
is answered with status 400 and "User already exists with this email",
performs only the existence lookup, leaves the store unchanged, and the
token of the first call still verifies (validity depends only on
signature and expiry, never on the store). -/
theorem register_twice_rejected (secret : String) (now1 now2 at2 : Nat)
    (db : Db) (body : AuthBody)
    (he : truthyStr body.email = true)
    (hp : truthyStr body.pin = true)
    (hn : truthyStr body.name = true)
    (h4 : isPin4 (body.pin.getD "") = true)
    (hnew : getUserByEmail db (body.email.getD "") = none)
    (hexp : at2 < now1 + sevenDays) :
    ∃ tok user db2,
      register secret now1 db body
        = (AuthOutcome.ok 200 (some "User registered successfully") tok user,
            db2,
            [DbEffect.getUserByEmail (body.email.getD ""),
             DbEffect.createUserWithPin (body.email.getD "")
               (body.name.getD "") (body.pin.getD "")]) ∧
      register secret now2 db2 body
        = (AuthOutcome.err 400 "User already exists with this email", db2,
            [DbEffect.getUserByEmail (body.email.getD "")]) ∧
      ∃ p, jwtVerify tok secret at2 = some p := by
  refine ⟨jwtSign (db.length + 1) (body.email.getD "") (body.name.getD "")
            none secret now1,
          { id := toString (db.length + 1), email := body.email.getD ""
          , name := body.name.getD "", isGuest := none },
          db ++ [{ id := db.length + 1, email := body.email.getD ""
                 , name := body.name.getD ""
                 , pin := some (body.pin.getD ""), guestRow := false }],
          ?_, ?_, ?_⟩
  · simp [register, he, hp, hn, h4, hnew, createUserWithPin, freshId]
  · have hfind : getUserByEmail
        (db ++ [{ id := db.length + 1, email := body.email.getD ""
                , name := body.name.getD ""
                , pin := some (body.pin.getD ""), guestRow := false }])
        (body.email.getD "")
        = some { id := db.length + 1, email := body.email.getD ""
               , name := body.name.getD ""
               , pin := some (body.pin.getD ""), guestRow := false } := by
      unfold getUserByEmail at hnew ⊢
      rw [find?_append_of_none _ _ _ hnew]
      simp [List.find?]
    simp [register, he, hp, hn, h4, hfind]
  · exact ⟨_, jwtVerify_jwtSign _ _ _ _ _ _ _ hexp⟩

/-- C9 witness: registering "a@b.c" on an empty store, then again on the
resulting store, rejects the second call with the already-exists error. -/
theorem register_twice_rejected_witness :
    truthyStr (some "a@b.c") = true ∧ isPin4 "1234" = true ∧
    getUserByEmail [] "a@b.c" = none ∧ (0 : Nat) < 0 + sevenDays ∧
    (register "s" 1 (register "s" 0 [] sampleRegBody).2.1 sampleRegBody).1
      = AuthOutcome.err 400 "User already exists with this email" := by
  obtain ⟨tok, user, db2, h1, h2, -⟩ :=
    register_twice_rejected "s" 0 1 0 [] sampleRegBody
      (by decide) (by decide) (by decide) (by decide) rfl (by decide)
  refine ⟨by decide, by decide, rfl, by decide, ?_⟩
  have hdb : (register "s" 0 [] sampleRegBody).2.1 = db2 := by rw [h1]
  rw [hdb, h2]

end Capstack

